import Mathlib

/-
Verification development for src/litedb_manager.py: the LiteDBManager facade
over the sqlite3 engine.  The module translates structured arguments (table
names, column/value mappings, condition mappings) into parameterized SQL text,
executes it, and converts engine errors into boolean or empty-list results.

The facade itself is embedded from the source file line by line.  The sqlite3
engine is third-party code, not part of this repository, so it is modelled
structurally over the statement shapes the module generates, following the
documented semantics of SQLite (CREATE TABLE IF NOT EXISTS is a no-op on an
existing table, a WHERE keyword with no predicate expression is rejected as a
parse error, a negative LIMIT means no limit, comparisons with NULL are not
true).  Diagnostic printing is not modelled; it carries no structural output.
-/

set_option autoImplicit false

/-- SQL storage values handled by the facade.  Integer, text and NULL cover
every claim; the floating-point and blob storage classes play no role here. -/
inductive Value
  | intV (i : Int)
  | textV (s : String)
  | nullV
  deriving DecidableEq, Repr

/-- A Python dict used as a record or condition mapping: an association list
in insertion order, which is the iteration order of Python dicts. -/
abbrev Record := List (String × Value)

/-- Iteration order of dict.keys(). -/
def recKeys (d : Record) : List String := d.map Prod.fst

/-- Iteration order of dict.values(). -/
def recValues (d : Record) : List Value := d.map Prod.snd

/-- Python sep.join over a list of strings. -/
def pyJoin (sep : String) : List String → String
  | [] => ""
  | [x] => x
  | x :: y :: xs => x ++ sep ++ pyJoin sep (y :: xs)

/-- Python truthiness of an Optional dict argument: None and the empty dict
are falsy, every non-empty dict is truthy. -/
def truthyOptRec : Option Record → Bool
  | none => false
  | some d => !d.isEmpty

/-- Python truthiness of an Optional int argument: None and 0 are falsy. -/
def truthyOptInt : Option Int → Bool
  | none => false
  | some n => n != 0

/-- One step of Python dict construction: a repeated key keeps its original
position and takes the new value, a fresh key is appended. -/
def pyDictIns (d : Record) (k : String) (v : Value) : Record :=
  if (d.map Prod.fst).contains k then
    d.map (fun p => if p.1 == k then (k, v) else p)
  else d ++ [(k, v)]

/-- Python dict(pairs). -/
def pyDict (l : List (String × Value)) : Record :=
  l.foldl (fun d p => pyDictIns d p.1 p.2) []

/-- Characters removed by Python str.strip() with no argument. -/
def isPySpace (c : Char) : Bool :=
  c == ' ' || c == '\t' || c == '\n' || c == '\r' || c == '\x0b' || c == '\x0c'

/-- Python str.strip(): drop leading and trailing whitespace. -/
def pyStrip (s : String) : String :=
  ⟨((s.data.dropWhile isPySpace).reverse.dropWhile isPySpace).reverse⟩

/-- Python str.upper(), on the ASCII letters that matter here. -/
def pyUpper (s : String) : String :=
  ⟨s.data.map Char.toUpper⟩

/-- List-level prefix test. -/
def listIsPrefix : List Char → List Char → Bool
  | _, [] => true
  | [], _ :: _ => false
  | a :: as, b :: bs => a == b && listIsPrefix as bs

/-- Python s.startswith(pre). -/
def pyStartsWith (s pre : String) : Bool :=
  listIsPrefix s.data pre.data

/-- Drop the first n characters of a string. -/
def pyDrop (s : String) (n : Nat) : String :=
  ⟨s.data.drop n⟩

/-
SQL text builders, embedded from the source one clause at a time.
-/

/-- Lines 51-55: the CREATE TABLE statement text, one `name type` fragment per
column in mapping iteration order. -/
def createTableSQL (table_name : String) (columns : List (String × String)) : String :=
  "CREATE TABLE IF NOT EXISTS " ++ table_name ++ " (" ++
    pyJoin ", " (columns.map (fun p => p.1 ++ " " ++ p.2)) ++ ")"

/-- Lines 76-80: the INSERT statement text, with the column list from
data.keys() and one `?` placeholder per key. -/
def insertSQL (table_name : String) (data : Record) : String :=
  "INSERT INTO " ++ table_name ++ " (" ++ pyJoin ", " (recKeys data) ++
    ") VALUES (" ++ pyJoin ", " (data.map (fun _ => "?")) ++ ")"

/-- Lines 140, 178 and 203: the WHERE clause body, equality predicates joined
with AND in condition iteration order. -/
def whereClause (conditions : Record) : String :=
  pyJoin " AND " ((recKeys conditions).map (fun k => k ++ " = ?"))

/-- Line 177: the SET clause body of an UPDATE. -/
def setClause (data : Record) : String :=
  pyJoin ", " ((recKeys data).map (fun k => k ++ " = ?"))

/-- Lines 136-145: the SELECT statement text.  The WHERE clause is appended
only when the conditions argument is truthy, and the LIMIT clause only when
the limit argument is truthy (so a limit of 0 appends nothing). -/
def selectSQL (table_name : String) (conditions : Option Record)
    (columns : String) (limit : Option Int) : String :=
  let sql0 := "SELECT " ++ columns ++ " FROM " ++ table_name
  let sql1 :=
    if truthyOptRec conditions then sql0 ++ " WHERE " ++ whereClause (conditions.getD [])
    else sql0
  if truthyOptInt limit then sql1 ++ " LIMIT " ++ toString (limit.getD 0) else sql1

/-- Lines 137-142: the parameter list bound by select. -/
def selectParams (conditions : Option Record) : List Value :=
  if truthyOptRec conditions then recValues (conditions.getD []) else []

/-- Lines 177-181: the UPDATE statement text; the WHERE keyword is always
present, even when the conditions mapping is empty. -/
def updateSQL (table_name : String) (data : Record) (conditions : Record) : String :=
  "UPDATE " ++ table_name ++ " SET " ++ setClause data ++ " WHERE " ++ whereClause conditions

/-- Lines 203-205: the DELETE statement text; the WHERE keyword is always
present, even when the conditions mapping is empty. -/
def deleteSQL (table_name : String) (conditions : Record) : String :=
  "DELETE FROM " ++ table_name ++ " WHERE " ++ whereClause conditions

/-- Lines 104-112: the bulk INSERT statement text, built from the keys of the
first record only (data_list[0]). -/
def bulkInsertSQL (table_name : String) (data_list : List Record) : String :=
  "INSERT INTO " ++ table_name ++ " (" ++ pyJoin ", " (recKeys (data_list.headD [])) ++
    ") VALUES (" ++ pyJoin ", " ((data_list.headD []).map (fun _ => "?")) ++ ")"

/-- Lines 108-110: the value rows bound by executemany, each record
contributing list(data.values()) in its own iteration order. -/
def bulkValues (data_list : List Record) : List (List Value) :=
  data_list.map recValues

/-
Engine model.  A database file is a list of named tables in creation order;
a table is a schema (column name and type clause, in creation order) together
with its rows in insertion order.
-/

/-- A table of the modelled database file. -/
structure Table where
  schema : List (String × String)
  rows : List (List Value)
  deriving DecidableEq, Repr

/-- The content of the database file: named tables in creation order. -/
abbrev DB := List (String × Table)

/-- The errors the modelled engine can signal.  All of them surface in Python
as subclasses of sqlite3.Error, so the facade catches every one of them. -/
inductive SqlError
  | parseError
  | noSuchTable
  | noSuchColumn
  | bindingMismatch
  | connClosed
  deriving DecidableEq, Repr

/-- The statement shapes the facade generates, as the engine parses them.
WHERE clauses carry their predicate column list; `some []` is a WHERE keyword
followed by no predicate expression. -/
inductive Stmt
  | createTable (name : String) (cols : List (String × String))
  | insertInto (name : String) (cols : List String) (nPlaceholders : Nat)
  | selectFrom (name : String) (columns : String)
      (whereKeys : Option (List String)) (limit : Option Int)
  | updateRows (name : String) (setKeys : List String) (whereKeys : Option (List String))
  | deleteRows (name : String) (whereKeys : Option (List String))
  | masterTables
  deriving DecidableEq, Repr

/-- Column names of a table, in schema order. -/
def schemaCols (t : Table) : List String := t.schema.map Prod.fst

/-- Index of a column name in the schema. -/
def colIndexOf (t : Table) (c : String) : Option Nat :=
  (schemaCols t).findIdx? (fun x => x == c)

/-- Resolve a list of column names against the schema, failing on the first
unknown name (the engine validates names at prepare time). -/
def resolveCols (t : Table) : List String → Except SqlError (List Nat)
  | [] => .ok []
  | k :: ks =>
    match colIndexOf t k with
    | none => .error .noSuchColumn
    | some i =>
      match resolveCols t ks with
      | .ok is => .ok (i :: is)
      | .error e => .error e

/-- SQL equality as used by WHERE predicates: any comparison involving NULL
is not true. -/
def sqlValueEq (a b : Value) : Bool :=
  match a, b with
  | .nullV, _ => false
  | _, .nullV => false
  | x, y => x == y

/-- Whether a row satisfies every equality predicate (AND combination). -/
def rowMatches (idxs : List Nat) (vals : List Value) (row : List Value) : Bool :=
  (idxs.zip vals).all (fun p =>
    match row.get? p.1 with
    | some w => sqlValueEq w p.2
    | none => false)

/-- Apply a SET clause to one row. -/
def applySet (idxs : List Nat) (vals : List Value) (row : List Value) : List Value :=
  (idxs.zip vals).foldl (fun r p => r.set p.1 p.2) row

/-- The row stored by an INSERT: named columns take their bound value, the
remaining schema columns default to NULL. -/
def buildRow (t : Table) (cols : List String) (ps : List Value) : List Value :=
  t.schema.map (fun c => ((cols.zip ps).lookup c.1).getD .nullV)

/-- Replace one named table of the database. -/
def dbSet (db : DB) (name : String) (t : Table) : DB :=
  db.map (fun p => if p.1 == name then (name, t) else p)

/-- Split a string at commas (Python-style split keeping empty fragments). -/
def splitCommaGo (cur : List Char) : List Char → List (List Char)
  | [] => [cur.reverse]
  | c :: rest =>
    if c = ',' then cur.reverse :: splitCommaGo [] rest
    else splitCommaGo (c :: cur) rest

/-- Split a string at commas. -/
def pySplitComma (s : String) : List String :=
  (splitCommaGo [] s.data).map (fun l => ⟨l⟩)

/-- Interpretation of the columns text of a SELECT: `*` means every schema
column, otherwise a comma-separated list of column names (whitespace around
each name is insignificant to the engine tokenizer).  General expressions are
outside the modelled statement shapes. -/
def projectCols (t : Table) (columns : String) : Except SqlError (List String × List Nat) :=
  if columns = "*" then .ok (schemaCols t, List.range t.schema.length)
  else
    let names := (pySplitComma columns).map pyStrip
    match resolveCols t names with
    | .ok idxs => .ok (names, idxs)
    | .error e => .error e

/-- One engine statement execution over the database content.  Successful
queries return the cursor description (column names) and the fetched rows;
successful writes return empty cursor data and the updated content.  A WHERE
keyword with no predicate expression, as generated by update and delete with
an empty conditions mapping, is a parse error in SQLite, not an unconditional
match; an empty SET clause is likewise a parse error; CREATE TABLE IF NOT
EXISTS on an existing name is a no-op; a negative LIMIT means no limit.
Constraint enforcement (NOT NULL, UNIQUE and similar) is not modelled: the
claims about the facade quantify over contents where it does not fire. -/
def Engine.execute (db : DB) (s : Stmt) (ps : List Value) :
    Except SqlError ((List String × List (List Value)) × DB) :=
  match s with
  | .createTable name cols =>
    if (db.map Prod.fst).contains name then .ok (([], []), db)
    else .ok (([], []), db ++ [(name, ⟨cols, []⟩)])
  | .insertInto name cols n =>
    match db.lookup name with
    | none => .error .noSuchTable
    | some t =>
      if cols.length != n then .error .parseError
      else if ps.length != n then .error .bindingMismatch
      else
        match resolveCols t cols with
        | .error e => .error e
        | .ok _ => .ok (([], []), dbSet db name ⟨t.schema, t.rows ++ [buildRow t cols ps]⟩)
  | .selectFrom name columns whereK lim =>
    if whereK = some [] then .error .parseError
    else
      match db.lookup name with
      | none => .error .noSuchTable
      | some t =>
        let condKeys := whereK.getD []
        if ps.length != condKeys.length then .error .bindingMismatch
        else
          match resolveCols t condKeys with
          | .error e => .error e
          | .ok idxs =>
            match projectCols t columns with
            | .error e => .error e
            | .ok pr =>
              let matched := t.rows.filter (fun r => rowMatches idxs ps r)
              let limited :=
                match lim with
                | none => matched
                | some n => if n < 0 then matched else matched.take n.toNat
              .ok ((pr.1, limited.map (fun r => pr.2.map (fun i => r.getD i .nullV))), db)
  | .updateRows name setKeys whereK =>
    if setKeys.isEmpty then .error .parseError
    else if whereK = some [] then .error .parseError
    else
      match db.lookup name with
      | none => .error .noSuchTable
      | some t =>
        let condKeys := whereK.getD []
        if ps.length != setKeys.length + condKeys.length then .error .bindingMismatch
        else
          match resolveCols t setKeys with
          | .error e => .error e
          | .ok setIdxs =>
            match resolveCols t condKeys with
            | .error e => .error e
            | .ok condIdxs =>
              let setVals := ps.take setKeys.length
              let condVals := ps.drop setKeys.length
              let newRows := t.rows.map (fun r =>
                if rowMatches condIdxs condVals r then applySet setIdxs setVals r else r)
              .ok (([], []), dbSet db name ⟨t.schema, newRows⟩)
  | .deleteRows name whereK =>
    if whereK = some [] then .error .parseError
    else
      match db.lookup name with
      | none => .error .noSuchTable
      | some t =>
        let condKeys := whereK.getD []
        if ps.length != condKeys.length then .error .bindingMismatch
        else
          match resolveCols t condKeys with
          | .error e => .error e
          | .ok idxs =>
            .ok (([], []), dbSet db name ⟨t.schema, t.rows.filter (fun r => !rowMatches idxs ps r)⟩)
  | .masterTables =>
    .ok ((["name"], db.map (fun p => [Value.textV p.1])), db)

/-- A sqlite3 connection handle as the facade sees it: it exists and is
either open or already closed. -/
structure Conn where
  isOpen : Bool
  deriving DecidableEq, Repr

/-- cursor.execute on a held connection: operating on a closed connection
raises a sqlite3 ProgrammingError, which is still a sqlite3.Error. -/
def Engine.run (c : Conn) (db : DB) (s : Stmt) (ps : List Value) :
    Except SqlError ((List String × List (List Value)) × DB) :=
  if c.isOpen then Engine.execute db s ps else .error .connClosed

/-- cursor.executemany: the statement is executed once per parameter row;
the first failing row aborts the batch. -/
def Engine.executeMany (db : DB) (s : Stmt) : List (List Value) → Except SqlError DB
  | [] => .ok db
  | ps :: rest =>
    match Engine.execute db s ps with
    | .ok (_, db1) => Engine.executeMany db1 s rest
    | .error e => .error e

/-- cursor.executemany on a held connection. -/
def Engine.runMany (c : Conn) (db : DB) (s : Stmt) (pss : List (List Value)) :
    Except SqlError DB :=
  if c.isOpen then Engine.executeMany db s pss else .error .connClosed

/-- Identifier characters accepted for a plain table name. -/
def isIdentChar (c : Char) : Bool := c.isAlphanum || c == '_'

/-- A plain unquoted identifier. -/
def isIdent (s : String) : Bool := !s.data.isEmpty && s.data.all isIdentChar

/-- Engine-side reading of raw statement text handed to execute_sql.  The
model covers the plain single-table star select shape; any other raw text is
treated as an engine parse error, which the facade catches and converts. -/
def parseStmt (s : String) : Option Stmt :=
  if pyStartsWith s "SELECT * FROM " then
    let rest := pyStrip (pyDrop s 14)
    if isIdent rest then some (.selectFrom rest "*" none none) else none
  else none

/-- cursor.execute on raw statement text. -/
def Engine.runRaw (c : Conn) (db : DB) (s : String) (ps : List Value) :
    Except SqlError ((List String × List (List Value)) × DB) :=
  if c.isOpen then
    match parseStmt s with
    | some st => Engine.execute db st ps
    | none => .error .parseError
  else .error .connClosed

/-- The only error a facade operation can raise into its caller: the except
clauses catch sqlite3.Error only, and when self.cursor is None the attribute
access cursor.execute raises AttributeError, which they do not catch. -/
inductive PyError
  | attributeError
  deriving DecidableEq, Repr

/-- Lines 5-20: the facade state, a stored path and an optional connection. -/
structure LiteDBManager where
  db_path : String
  connection : Option Conn
  deriving DecidableEq, Repr

/-- Lines 11-30: construction stores the path and attempts to connect; on
failure only a diagnostic is printed and the connection stays None.  Whether
sqlite3.connect succeeds depends on the filesystem, which is outside this
model, so the outcome is an explicit parameter. -/
def LiteDBManager.init (db_path : String) (connectOk : Bool) : LiteDBManager :=
  if connectOk then ⟨db_path, some ⟨true⟩⟩ else ⟨db_path, none⟩

/-- Lines 32-36: disconnect closes the connection when one is present (the
attribute keeps pointing at the now-closed handle) and does nothing when the
connection is None; the stored path is never touched. -/
def LiteDBManager.disconnect (m : LiteDBManager) : LiteDBManager :=
  match m.connection with
  | some _ => ⟨m.db_path, some ⟨false⟩⟩
  | none => m

/-- Lines 38-62: create_table.  The database content is passed and returned
explicitly, standing for the file the connection points at. -/
def LiteDBManager.create_table (m : LiteDBManager) (db : DB) (table_name : String)
    (columns : List (String × String)) : Except PyError (Bool × DB) :=
  match m.connection with
  | none => .error .attributeError
  | some c =>
    match Engine.run c db (.createTable table_name columns) [] with
    | .ok (_, db1) => .ok (true, db1)
    | .error _ => .ok (false, db)

/-- Lines 64-87: insert. -/
def LiteDBManager.insert (m : LiteDBManager) (db : DB) (table_name : String)
    (data : Record) : Except PyError (Bool × DB) :=
  match m.connection with
  | none => .error .attributeError
  | some c =>
    match Engine.run c db (.insertInto table_name (recKeys data) data.length) (recValues data) with
    | .ok (_, db1) => .ok (true, db1)
    | .error _ => .ok (false, db)

/-- Lines 89-119: bulk_insert.  The empty-list check precedes every cursor
access, so the empty case succeeds even without a connection. -/
def LiteDBManager.bulk_insert (m : LiteDBManager) (db : DB) (table_name : String)
    (data_list : List Record) : Except PyError (Bool × DB) :=
  if data_list.isEmpty then .ok (true, db)
  else
    match m.connection with
    | none => .error .attributeError
    | some c =>
      match Engine.runMany c db
          (.insertInto table_name (recKeys (data_list.headD [])) (data_list.headD []).length)
          (bulkValues data_list) with
      | .ok db1 => .ok (true, db1)
      | .error _ => .ok (false, db)

/-- Lines 150-156 and 249-254: fetched rows zipped with the cursor
description into dicts. -/
def normalizeRows (names : List String) (rows : List (List Value)) : List Record :=
  rows.map (fun r => pyDict (names.zip r))

/-- Lines 121-161: select. -/
def LiteDBManager.select (m : LiteDBManager) (db : DB) (table_name : String)
    (conditions : Option Record) (columns : String) (limit : Option Int) :
    Except PyError (List Record × DB) :=
  match m.connection with
  | none => .error .attributeError
  | some c =>
    let whereK := if truthyOptRec conditions then some (recKeys (conditions.getD [])) else none
    let lim := if truthyOptInt limit then limit else none
    match Engine.run c db (.selectFrom table_name columns whereK lim) (selectParams conditions) with
    | .ok (res, db1) => .ok (normalizeRows res.1 res.2, db1)
    | .error _ => .ok ([], db)

/-- Lines 163-189: update. -/
def LiteDBManager.update (m : LiteDBManager) (db : DB) (table_name : String)
    (data : Record) (conditions : Record) : Except PyError (Bool × DB) :=
  match m.connection with
  | none => .error .attributeError
  | some c =>
    match Engine.run c db (.updateRows table_name (recKeys data) (some (recKeys conditions)))
        (recValues data ++ recValues conditions) with
    | .ok (_, db1) => .ok (true, db1)
    | .error _ => .ok (false, db)

/-- Lines 191-214: delete. -/
def LiteDBManager.delete (m : LiteDBManager) (db : DB) (table_name : String)
    (conditions : Record) : Except PyError (Bool × DB) :=
  match m.connection with
  | none => .error .attributeError
  | some c =>
    match Engine.run c db (.deleteRows table_name (some (recKeys conditions)))
        (recValues conditions) with
    | .ok (_, db1) => .ok (true, db1)
    | .error _ => .ok (false, db)

/-- First cell of a catalog row, a table name. -/
def extractName (v : Value) : Option String :=
  match v with
  | .textV s => some s
  | _ => none

/-- Lines 216-229: get_all_tables.  The source sends the fixed catalog query
text (SELECT name FROM sqlite_master WHERE the type is table), modelled as the
masterTables statement, then keeps every fetched first cell different from
sqlite_sequence. -/
def LiteDBManager.get_all_tables (m : LiteDBManager) (db : DB) :
    Except PyError (List String × DB) :=
  match m.connection with
  | none => .error .attributeError
  | some c =>
    match Engine.run c db .masterTables [] with
    | .ok (res, db1) =>
      .ok (((res.2.map (fun r => r.headD .nullV)).filterMap extractName).filter
        (fun s => s != "sqlite_sequence"), db1)
    | .error _ => .ok ([], db)

/-- Lines 231-264: execute_sql.  A None parameter list becomes the empty
list; the statement is executed first; then, when the stripped uppercased
text starts with SELECT, the rows are fetched and normalized, otherwise the
change is committed and the empty list returned; every sqlite3.Error is
caught and converted to the empty list. -/
def LiteDBManager.execute_sql (m : LiteDBManager) (db : DB) (sql : String)
    (params : Option (List Value)) : Except PyError (List Record × DB) :=
  match m.connection with
  | none => .error .attributeError
  | some c =>
    let ps := params.getD []
    match Engine.runRaw c db sql ps with
    | .error _ => .ok ([], db)
    | .ok (res, db1) =>
      if pyStartsWith (pyUpper (pyStrip sql)) "SELECT" then
        .ok (normalizeRows res.1 res.2, db1)
      else .ok ([], db1)

/-
Concrete data used by the witnesses and counterexamples: a connected facade
over a database holding one two-row table named t.
-/

/-- A two-row table with an integer id column and a text name column. -/
def demoTable : Table :=
  ⟨[("id", "INTEGER PRIMARY KEY"), ("name", "TEXT")],
   [[Value.intV 1, Value.textV "a"], [Value.intV 2, Value.textV "b"]]⟩

/-- A database file content holding demoTable under the name t. -/
def demoDB : DB := [("t", demoTable)]

/-
General helper lemmas about the embedded string building and the engine.
-/

/-- The keys zipped with the values recover the record entry by entry. -/
theorem recKeys_zip_recValues (d : Record) : (recKeys d).zip (recValues d) = d := by
  simp only [recKeys, recValues]
  exact Eq.symm (List.zip_of_prod rfl rfl)

/-- A join of fragments free of a character is free of that character. -/
theorem notMem_pyJoin {c : Char} {sep : String} (l : List String)
    (hsep : c ∉ sep.data) (h : ∀ s ∈ l, c ∉ s.data) : c ∉ (pyJoin sep l).data := by
  induction l with
  | nil => simp [pyJoin]
  | cons x xs ih =>
    cases xs with
    | nil => simpa [pyJoin] using h x (by simp)
    | cons y ys =>
      have hx := h x (by simp)
      have hrest := ih (fun s hs => h s (by simp [hs]))
      intro hc
      simp only [pyJoin, String.data_append, List.mem_append] at hc
      rcases hc with (hc | hc) | hc
      · exact hx hc
      · exact hsep hc
      · exact hrest hc

/-- The placeholder join holds exactly one question mark per source entry. -/
theorem count_pyJoin_placeholders {α : Type} (l : List α) :
    ((pyJoin ", " (l.map (fun _ => "?"))).data.count '?') = l.length := by
  induction l with
  | nil => rfl
  | cons x xs ih =>
    cases xs with
    | nil => rfl
    | cons y ys =>
      simp only [List.map_cons, pyJoin, String.data_append, List.count_append] at *
      rw [ih, show List.count '?' ['?'] = 1 from rfl, show List.count '?' [',', ' '] = 0 from rfl]
      simp only [List.length_cons]
      omega

/-- Reading a well-formed row back index by index reproduces the row. -/
theorem map_range_getD (r : List Value) :
    (List.range r.length).map (fun i => r.getD i .nullV) = r := by
  apply List.ext_getElem
  · simp
  · intro i h1 h2
    simp [List.getElem?_eq_getElem h2]

/-- The catalog rows reduce to the stored table names. -/
theorem catalogNames (db : DB) :
    ((db.map (fun p => [Value.textV p.1])).map (fun r => r.headD Value.nullV)).filterMap
      extractName = db.map Prod.fst := by
  induction db with
  | nil => rfl
  | cons x xs ih =>
    simp only [List.map_cons, List.headD_cons, List.filterMap_cons, extractName]
    rw [ih]

/-- On an open connection, get_all_tables returns the stored table names with
sqlite_sequence filtered out, and leaves the content unchanged. -/
theorem get_all_tables_names (pth : String) (db : DB) :
    LiteDBManager.get_all_tables ⟨pth, some ⟨true⟩⟩ db =
      .ok ((db.map Prod.fst).filter (fun s => s != "sqlite_sequence"), db) := by
  rw [show LiteDBManager.get_all_tables ⟨pth, some ⟨true⟩⟩ db =
        .ok ((((db.map (fun p => [Value.textV p.1])).map
          (fun r => r.headD Value.nullV)).filterMap extractName).filter
            (fun s => s != "sqlite_sequence"), db) from rfl,
      catalogNames db]

/-- Claim C7: bulk_insert applied to an empty record list is a trivial
success: it executes no statement, leaves the database content (hence every
row count) unchanged, and returns true.  The empty-list check precedes every
cursor access, so this holds in every facade state. -/
theorem bulk_insert_empty_noop (m : LiteDBManager) (db : DB) (t : String) :
    m.bulk_insert db t [] = .ok (true, db) := rfl

/-- Claim C10: disconnect on a facade whose connection is absent performs no
action and raises none; with a connection present it closes it; in either
case the stored database path is unchanged. -/
theorem disconnect_safe (m : LiteDBManager) :
    (m.disconnect).db_path = m.db_path ∧
    (m.connection = none → m.disconnect = m) ∧
    (∀ cn : Conn, m.connection = some cn → m.disconnect = ⟨m.db_path, some ⟨false⟩⟩) := by
  cases m with
  | mk p con => cases con <;> simp [LiteDBManager.disconnect]

/-- Witness for C10 at the two concrete facade states. -/
theorem disconnect_safe_witness :
    LiteDBManager.disconnect ⟨"a.db", none⟩ = ⟨"a.db", none⟩ ∧
    LiteDBManager.disconnect ⟨"a.db", some ⟨true⟩⟩ = ⟨"a.db", some ⟨false⟩⟩ :=
  ⟨(disconnect_safe ⟨"a.db", none⟩).2.1 rfl,
   (disconnect_safe ⟨"a.db", some ⟨true⟩⟩).2.2 ⟨true⟩ rfl⟩

/-- Rows of a table whose rows all have schema length are reproduced exactly
by the star projection. -/
theorem star_projection_id (tbl : Table)
    (hwf : ∀ r ∈ tbl.rows, r.length = tbl.schema.length) :
    tbl.rows.map (fun r => (List.range tbl.schema.length).map
      (fun i => r.getD i Value.nullV)) = tbl.rows := by
  have h : ∀ r ∈ tbl.rows,
      (List.range tbl.schema.length).map (fun i => r.getD i Value.nullV) = id r := by
    intro r hr
    rw [← hwf r hr]
    exact map_range_getD r
  rw [List.map_congr_left h, List.map_id]

/-- The engine on an unconditional star select over an existing well-formed
table returns every row unchanged. -/
theorem engine_select_all (db : DB) (t : String) (tbl : Table)
    (hl : db.lookup t = some tbl)
    (hwf : ∀ r ∈ tbl.rows, r.length = tbl.schema.length) :
    Engine.execute db (.selectFrom t "*" none none) [] =
      .ok ((schemaCols tbl, tbl.rows), db) := by
  unfold Engine.execute
  simp only [hl]
  show (Except.ok ((schemaCols tbl,
      (tbl.rows.filter (fun r => rowMatches [] [] r)).map
        (fun r => (List.range tbl.schema.length).map (fun i => r.getD i Value.nullV))), db)
    : Except SqlError ((List String × List (List Value)) × DB)) =
    .ok ((schemaCols tbl, tbl.rows), db)
  rw [show (fun (r : List Value) => rowMatches [] [] r) = fun _ => true from rfl,
      List.filter_true, star_projection_id tbl hwf]

/-- Claim C9: select with an empty conditions mapping behaves exactly like
select with no conditions argument: the empty mapping is falsy, so no WHERE
clause and no parameter is produced, and on an open connection over an
existing well-formed table the full row set is returned (not zero rows and
not a failure). -/
theorem select_empty_conditions_eq_none (m : LiteDBManager) (db : DB)
    (t scols : String) (lim : Option Int) (pth : String) :
    m.select db t (some []) scols lim = m.select db t none scols lim ∧
    selectSQL t (some []) scols lim = selectSQL t none scols lim ∧
    selectParams (some []) = selectParams none ∧
    (∀ tbl : Table, db.lookup t = some tbl →
      (∀ r ∈ tbl.rows, r.length = tbl.schema.length) →
      LiteDBManager.select ⟨pth, some ⟨true⟩⟩ db t (some []) "*" none =
        .ok (normalizeRows (schemaCols tbl) tbl.rows, db)) := by
  refine ⟨rfl, rfl, rfl, ?_⟩
  intro tbl hl hwf
  show (match Engine.run ⟨true⟩ db (.selectFrom t "*" none none) [] with
    | .ok (res, db1) => (.ok (normalizeRows res.1 res.2, db1) : Except PyError (List Record × DB))
    | .error _ => .ok ([], db)) = .ok (normalizeRows (schemaCols tbl) tbl.rows, db)
  rw [show Engine.run ⟨true⟩ db (.selectFrom t "*" none none) [] =
      Engine.execute db (.selectFrom t "*" none none) [] from rfl,
    engine_select_all db t tbl hl hwf]

/-- Witness for C9 on the demo table. -/
theorem select_empty_conditions_eq_none_witness :
    LiteDBManager.select ⟨"w.db", some ⟨true⟩⟩ demoDB "t" (some []) "*" none =
      .ok ([[("id", Value.intV 1), ("name", Value.textV "a")],
            [("id", Value.intV 2), ("name", Value.textV "b")]], demoDB) :=
  ((select_empty_conditions_eq_none ⟨"w.db", some ⟨true⟩⟩ demoDB "t" "*" none
    "w.db").2.2.2 demoTable rfl (by decide)).trans (by rfl)

/-- Claim C1 (amended): while a connection object is held, every public
operation converts every engine (sqlite3) error into false or an empty
result and raises nothing into the caller; but when construction/connect
failed and the connection is absent, every operation raises AttributeError
into the caller (the except clauses catch only sqlite3.Error), with the sole
exception of bulk_insert on an empty record list, whose empty-input check
precedes any cursor access and returns true. -/
theorem error_policy_amended :
    (∀ (pth : String) (c : Conn) (db : DB) (t : String)
        (cols : List (String × String)) (d : Record) (l : List Record)
        (sconds : Option Record) (scols : String) (lim : Option Int)
        (data conds : Record) (s : String) (p : Option (List Value)),
      (∃ r, LiteDBManager.create_table ⟨pth, some c⟩ db t cols = .ok r) ∧
      (∃ r, LiteDBManager.insert ⟨pth, some c⟩ db t d = .ok r) ∧
      (∃ r, LiteDBManager.bulk_insert ⟨pth, some c⟩ db t l = .ok r) ∧
      (∃ r, LiteDBManager.select ⟨pth, some c⟩ db t sconds scols lim = .ok r) ∧
      (∃ r, LiteDBManager.update ⟨pth, some c⟩ db t data conds = .ok r) ∧
      (∃ r, LiteDBManager.delete ⟨pth, some c⟩ db t conds = .ok r) ∧
      (∃ r, LiteDBManager.get_all_tables ⟨pth, some c⟩ db = .ok r) ∧
      (∃ r, LiteDBManager.execute_sql ⟨pth, some c⟩ db s p = .ok r)) ∧
    (∀ (pth : String) (db : DB) (t : String)
        (cols : List (String × String)) (d : Record) (l : List Record)
        (sconds : Option Record) (scols : String) (lim : Option Int)
        (data conds : Record) (s : String) (p : Option (List Value)),
      LiteDBManager.create_table ⟨pth, none⟩ db t cols = .error .attributeError ∧
      LiteDBManager.insert ⟨pth, none⟩ db t d = .error .attributeError ∧
      (l ≠ [] → LiteDBManager.bulk_insert ⟨pth, none⟩ db t l = .error .attributeError) ∧
      LiteDBManager.bulk_insert ⟨pth, none⟩ db t [] = .ok (true, db) ∧
      LiteDBManager.select ⟨pth, none⟩ db t sconds scols lim = .error .attributeError ∧
      LiteDBManager.update ⟨pth, none⟩ db t data conds = .error .attributeError ∧
      LiteDBManager.delete ⟨pth, none⟩ db t conds = .error .attributeError ∧
      LiteDBManager.get_all_tables ⟨pth, none⟩ db = .error .attributeError ∧
      LiteDBManager.execute_sql ⟨pth, none⟩ db s p = .error .attributeError) := by
  constructor
  · intro pth c db t cols d l sconds scols lim data conds s p
    refine ⟨?_, ?_, ?_, ?_, ?_, ?_, ?_, ?_⟩
    · cases h : Engine.run c db (Stmt.createTable t cols) [] with
      | ok r => exact ⟨(true, r.2), by simp [LiteDBManager.create_table, h]⟩
      | error e => exact ⟨(false, db), by simp [LiteDBManager.create_table, h]⟩
    · cases h : Engine.run c db (Stmt.insertInto t (recKeys d) d.length) (recValues d) with
      | ok r => exact ⟨(true, r.2), by simp [LiteDBManager.insert, h]⟩
      | error e => exact ⟨(false, db), by simp [LiteDBManager.insert, h]⟩
    · cases hE : l.isEmpty with
      | true => exact ⟨(true, db), by simp [LiteDBManager.bulk_insert, hE]⟩
      | false =>
        cases h : Engine.runMany c db
            (Stmt.insertInto t (recKeys (l.head?.getD []))
              (l.head?.getD [] : Record).length) (bulkValues l) with
        | ok db1 => exact ⟨(true, db1), by simp [LiteDBManager.bulk_insert, hE, h]⟩
        | error e => exact ⟨(false, db), by simp [LiteDBManager.bulk_insert, hE, h]⟩
    · cases h : Engine.run c db
          (Stmt.selectFrom t scols
            (if truthyOptRec sconds then some (recKeys (sconds.getD [])) else none)
            (if truthyOptInt lim then lim else none)) (selectParams sconds) with
      | ok r => exact ⟨(normalizeRows r.1.1 r.1.2, r.2), by simp [LiteDBManager.select, h]⟩
      | error e => exact ⟨([], db), by simp [LiteDBManager.select, h]⟩
    · cases h : Engine.run c db (Stmt.updateRows t (recKeys data) (some (recKeys conds)))
          (recValues data ++ recValues conds) with
      | ok r => exact ⟨(true, r.2), by simp [LiteDBManager.update, h]⟩
      | error e => exact ⟨(false, db), by simp [LiteDBManager.update, h]⟩
    · cases h : Engine.run c db (Stmt.deleteRows t (some (recKeys conds))) (recValues conds) with
      | ok r => exact ⟨(true, r.2), by simp [LiteDBManager.delete, h]⟩
      | error e => exact ⟨(false, db), by simp [LiteDBManager.delete, h]⟩
    · cases h : Engine.run c db Stmt.masterTables [] with
      | ok r =>
        exact ⟨(((r.1.2.map (fun row => row.headD .nullV)).filterMap extractName).filter
          (fun nm => nm != "sqlite_sequence"), r.2), by simp [LiteDBManager.get_all_tables, h]⟩
      | error e => exact ⟨([], db), by simp [LiteDBManager.get_all_tables, h]⟩
    · cases h : Engine.runRaw c db s (p.getD []) with
      | ok r =>
        cases hB : pyStartsWith (pyUpper (pyStrip s)) "SELECT" with
        | true =>
          exact ⟨(normalizeRows r.1.1 r.1.2, r.2), by simp [LiteDBManager.execute_sql, h, hB]⟩
        | false => exact ⟨([], r.2), by simp [LiteDBManager.execute_sql, h, hB]⟩
      | error e => exact ⟨([], db), by simp [LiteDBManager.execute_sql, h]⟩
  · intro pth db t cols d l sconds scols lim data conds s p
    refine ⟨rfl, rfl, ?_, rfl, rfl, rfl, rfl, rfl, rfl⟩
    intro hl
    cases l with
    | nil => exact absurd rfl hl
    | cons a as => rfl

/-- Claim C1 counterexample: on a facade whose construction failed (the
connection is absent), insert and select raise AttributeError into the
caller instead of returning false or an empty sequence, refuting the claim
that no public operation ever raises. -/
theorem error_policy_counterexample :
    (LiteDBManager.init "x.db" false).insert demoDB "t" [("id", Value.intV 9)] =
      .error .attributeError ∧
    (LiteDBManager.init "x.db" false).select demoDB "t" none "*" none =
      .error .attributeError :=
  ⟨rfl, rfl⟩

/-- Witness for C1 at concrete inputs. -/
theorem error_policy_amended_witness :
    (∃ r, LiteDBManager.insert ⟨"w.db", some ⟨true⟩⟩ demoDB "t"
        [("id", Value.intV 3), ("name", Value.textV "c")] = .ok r) ∧
    LiteDBManager.bulk_insert ⟨"w.db", none⟩ demoDB "t"
        [[("id", Value.intV 3)]] = .error .attributeError :=
  ⟨(error_policy_amended.1 "w.db" ⟨true⟩ demoDB "t" []
      [("id", Value.intV 3), ("name", Value.textV "c")] [] none "*" none [] [] "" none).2.1,
   (error_policy_amended.2 "w.db" demoDB "t" [] []
      [[("id", Value.intV 3)]] none "*" none [] [] "" none).2.2.1 (by simp)⟩

/-- Claim C2 (amended): update and delete with an empty conditions mapping
build a statement whose WHERE clause has no predicate text, and the engine
rejects that text as a parse error (in SQLite a WHERE keyword must be
followed by an expression), so the caught error makes the operation return
false and no row is affected: the call neither silently updates or deletes
all rows nor fails fast with an exception. -/
theorem empty_conditions_amended (pth : String) (c : Conn) (db : DB)
    (t : String) (data : Record) (hd : data ≠ []) :
    updateSQL t data [] = "UPDATE " ++ t ++ " SET " ++ setClause data ++ " WHERE " ∧
    deleteSQL t [] = "DELETE FROM " ++ t ++ " WHERE " ∧
    LiteDBManager.update ⟨pth, some c⟩ db t data [] = .ok (false, db) ∧
    LiteDBManager.delete ⟨pth, some c⟩ db t [] = .ok (false, db) := by
  obtain ⟨cb⟩ := c
  refine ⟨String.append_empty _, String.append_empty _, ?_, ?_⟩
  · cases data with
    | nil => exact absurd rfl hd
    | cons a as => cases cb <;> rfl
  · cases cb <;> rfl

/-- Claim C2 counterexample: on the demo table, update with an empty
conditions mapping returns false and leaves the database content unchanged —
both stored rows keep their previous values, so not a single row (let alone
all rows) was updated; delete with an empty conditions mapping likewise
removes nothing. -/
theorem empty_conditions_counterexample :
    LiteDBManager.update ⟨"w.db", some ⟨true⟩⟩ demoDB "t"
        [("name", Value.textV "z")] [] = .ok (false, demoDB) ∧
    LiteDBManager.delete ⟨"w.db", some ⟨true⟩⟩ demoDB "t" [] = .ok (false, demoDB) ∧
    demoDB.lookup "t" = some demoTable ∧
    demoTable.rows = [[Value.intV 1, Value.textV "a"], [Value.intV 2, Value.textV "b"]] ∧
    ¬ ([[Value.intV 1, Value.textV "a"], [Value.intV 2, Value.textV "b"]] =
       [[Value.intV 1, Value.textV "z"], [Value.intV 2, Value.textV "z"]]) :=
  ⟨rfl, rfl, rfl, rfl, by decide⟩

/-- Witness for C2 at a concrete input. -/
theorem empty_conditions_amended_witness :
    updateSQL "t" [("name", Value.textV "z")] [] = "UPDATE t SET name = ? WHERE " ∧
    deleteSQL "t" [] = "DELETE FROM t WHERE " ∧
    LiteDBManager.delete ⟨"w.db", some ⟨true⟩⟩ [("t", demoTable)] "t" [] =
      .ok (false, [("t", demoTable)]) :=
  ⟨(empty_conditions_amended "w.db" ⟨true⟩ [("t", demoTable)] "t"
      [("name", Value.textV "z")] (by simp)).1.trans (by rfl),
   (empty_conditions_amended "w.db" ⟨true⟩ [("t", demoTable)] "t"
      [("name", Value.textV "z")] (by simp)).2.1.trans (by rfl),
   (empty_conditions_amended "w.db" ⟨true⟩ [("t", demoTable)] "t"
      [("name", Value.textV "z")] (by simp)).2.2.2⟩

/-- Any successful engine execution of a select carrying LIMIT k with k
positive returns at most k rows. -/
theorem engine_select_limit_le {db : DB} {t scols : String}
    {whereK : Option (List String)} {k : Int} {ps : List Value}
    {res : List String × List (List Value)} {db1 : DB} (hk : 0 < k)
    (h : Engine.execute db (.selectFrom t scols whereK (some k)) ps = .ok (res, db1)) :
    res.2.length ≤ k.toNat := by
  rw [show Engine.execute db (.selectFrom t scols whereK (some k)) ps =
      (if whereK = some [] then .error .parseError
       else
         match db.lookup t with
         | none => .error .noSuchTable
         | some tb =>
           if (ps.length != (whereK.getD []).length) = true then .error .bindingMismatch
           else
             match resolveCols tb (whereK.getD []) with
             | .error e => .error e
             | .ok idxs =>
               match projectCols tb scols with
               | .error e => .error e
               | .ok pr =>
                 .ok ((pr.1,
                   (if k < 0 then tb.rows.filter (fun r => rowMatches idxs ps r)
                    else (tb.rows.filter (fun r => rowMatches idxs ps r)).take k.toNat).map
                     (fun r => pr.2.map (fun i => r.getD i Value.nullV))), db)) from rfl] at h
  repeat' split at h
  any_goals exact Except.noConfusion h
  all_goals
    injection h with h2
    injection h2 with hA hB
    subst hA
    simp only [List.length_map, List.length_take]
    omega

/-- Claim C3 (amended): when a positive limit k is supplied, the built
statement ends with the clause LIMIT k and the returned result sequence has
at most k rows.  A limit of 0 does not satisfy the truthiness guard on line
144, so for k = 0 the LIMIT clause is omitted and every row is returned. -/
theorem select_limit_amended (t : String) (conds : Option Record) (scols : String)
    (k : Int) (m : LiteDBManager) (db : DB) (hk : 0 < k) :
    (∃ pre : String, selectSQL t conds scols (some k) = pre ++ " LIMIT " ++ toString k) ∧
    ∀ rows db1, m.select db t conds scols (some k) = .ok (rows, db1) →
      rows.length ≤ k.toNat := by
  have htr : truthyOptInt (some k) = true := by
    simp only [truthyOptInt, bne_iff_ne, ne_eq, decide_eq_true_eq]
    omega
  constructor
  · cases htc : truthyOptRec conds with
    | false =>
      exact ⟨"SELECT " ++ scols ++ " FROM " ++ t, by simp [selectSQL, htr, htc]⟩
    | true =>
      exact ⟨"SELECT " ++ scols ++ " FROM " ++ t ++ " WHERE " ++ whereClause (conds.getD []),
        by simp [selectSQL, htr, htc]⟩
  · intro rows db1 h
    cases m with
    | mk pth con =>
      cases con with
      | none => exact Except.noConfusion h
      | some c =>
        obtain ⟨cb⟩ := c
        cases cb with
        | false =>
          injection h with h2
          injection h2 with hA hB
          subst hA
          simp
        | true =>
          have hlim : (if truthyOptInt (some k) then some k else none) = some k := by
            rw [htr]
            rfl
          have hrw : LiteDBManager.select ⟨pth, some ⟨true⟩⟩ db t conds scols (some k) =
              match Engine.execute db
                (.selectFrom t scols
                  (if truthyOptRec conds then some (recKeys (conds.getD [])) else none)
                  (if truthyOptInt (some k) then some k else none)) (selectParams conds) with
              | .ok (res, dbx) => .ok (normalizeRows res.1 res.2, dbx)
              | .error _ => .ok ([], db) := rfl
          rw [hlim] at hrw
          rw [hrw] at h
          cases hex : Engine.execute db
              (.selectFrom t scols
                (if truthyOptRec conds then some (recKeys (conds.getD [])) else none)
                (some k)) (selectParams conds) with
          | error e =>
            rw [hex] at h
            injection h with h2
            injection h2 with hA hB
            subst hA
            simp
          | ok r =>
            obtain ⟨resv, dbx⟩ := r
            rw [hex] at h
            injection h with h2
            injection h2 with hA hB
            subst hA
            simpa [normalizeRows] using engine_select_limit_le hk hex

/-- Claim C3 counterexample: with limit k = 0 on the two-row demo table, the
built statement carries no LIMIT clause at all and the call returns both
rows, not at most zero rows. -/
theorem select_limit_counterexample :
    selectSQL "t" none "*" (some 0) = "SELECT * FROM t" ∧
    LiteDBManager.select ⟨"w.db", some ⟨true⟩⟩ demoDB "t" none "*" (some 0) =
      .ok ([[("id", Value.intV 1), ("name", Value.textV "a")],
            [("id", Value.intV 2), ("name", Value.textV "b")]], demoDB) ∧
    ¬ ((2 : Nat) ≤ 0) :=
  ⟨rfl, rfl, by decide⟩

/-- Witness for C3: with limit 1 on the two-row demo table the single
returned row satisfies the bound. -/
theorem select_limit_amended_witness :
    ([[("id", Value.intV 1), ("name", Value.textV "a")]] : List Record).length ≤
      (1 : Int).toNat :=
  (select_limit_amended "t" none "*" 1 ⟨"w.db", some ⟨true⟩⟩ demoDB (by decide)).2
    [[("id", Value.intV 1), ("name", Value.textV "a")]] demoDB (by rfl)

/-- Claim C4: for a non-empty record list, bulk_insert determines the column
list and the placeholder arity from the first record only, and binds every
record positionally through its own value sequence, performing no per-record
key validation: two lists that agree on the first record's keys and on every
record's value sequence are processed identically, whatever the later
records' keys are. -/
theorem bulk_insert_first_record (pth : String) (con : Option Conn) (db : DB)
    (t : String) (l1 l2 : List Record) (h1 : l1 ≠ [])
    (hk : l1.head?.map recKeys = l2.head?.map recKeys)
    (hv : l1.map recValues = l2.map recValues) :
    bulkInsertSQL t l1 = insertSQL t (l1.headD []) ∧
    bulkInsertSQL t l1 = bulkInsertSQL t l2 ∧
    LiteDBManager.bulk_insert ⟨pth, con⟩ db t l1 =
      LiteDBManager.bulk_insert ⟨pth, con⟩ db t l2 := by
  cases l1 with
  | nil => exact absurd rfl h1
  | cons a as =>
    cases l2 with
    | nil => exact absurd hv (by simp)
    | cons b bs =>
      have hkey : recKeys a = recKeys b := by simpa using hk
      have hval1 : recValues a = recValues b := by
        have := congrArg (fun l => List.head? l) hv
        simpa using this
      have hvals : as.map recValues = bs.map recValues := by
        have := congrArg (fun l => List.tail l) hv
        simpa using this
      have hlen : a.length = b.length := by
        have := congrArg List.length hkey
        simpa [recKeys] using this
      have hq : a.map (fun _ => "?") = b.map (fun _ => "?") := by
        rw [List.map_const', List.map_const', hlen]
      refine ⟨rfl, ?_, ?_⟩
      · show "INSERT INTO " ++ t ++ " (" ++ pyJoin ", " (recKeys a) ++
          ") VALUES (" ++ pyJoin ", " (a.map (fun _ => "?")) ++ ")" =
          "INSERT INTO " ++ t ++ " (" ++ pyJoin ", " (recKeys b) ++
          ") VALUES (" ++ pyJoin ", " (b.map (fun _ => "?")) ++ ")"
        rw [hkey, hq]
      · cases con with
        | none => rfl
        | some c =>
          show (match Engine.runMany c db (.insertInto t (recKeys a) a.length)
              (bulkValues (a :: as)) with
            | .ok db1 => (Except.ok (true, db1) : Except PyError (Bool × DB))
            | .error _ => .ok (false, db)) =
            (match Engine.runMany c db (.insertInto t (recKeys b) b.length)
              (bulkValues (b :: bs)) with
            | .ok db1 => .ok (true, db1)
            | .error _ => .ok (false, db))
          rw [hkey, hlen,
            show bulkValues (a :: as) = bulkValues (b :: bs) from by
              simp [bulkValues, hval1, hvals]]

/-- Witness for C4: the second records of the two lists carry different keys
but the same values, and both calls behave identically. -/
theorem bulk_insert_first_record_witness :
    bulkInsertSQL "t" [[("id", Value.intV 3), ("name", Value.textV "c")],
                       [("x", Value.intV 4), ("y", Value.textV "d")]] =
      insertSQL "t" [("id", Value.intV 3), ("name", Value.textV "c")] ∧
    LiteDBManager.bulk_insert ⟨"w.db", some ⟨true⟩⟩ demoDB "t"
        [[("id", Value.intV 3), ("name", Value.textV "c")],
         [("x", Value.intV 4), ("y", Value.textV "d")]] =
      LiteDBManager.bulk_insert ⟨"w.db", some ⟨true⟩⟩ demoDB "t"
        [[("id", Value.intV 3), ("name", Value.textV "c")],
         [("id", Value.intV 4), ("name", Value.textV "d")]] :=
  ⟨(bulk_insert_first_record "w.db" (some ⟨true⟩) demoDB "t"
      [[("id", Value.intV 3), ("name", Value.textV "c")],
       [("x", Value.intV 4), ("y", Value.textV "d")]]
      [[("id", Value.intV 3), ("name", Value.textV "c")],
       [("id", Value.intV 4), ("name", Value.textV "d")]]
      (by simp) (by rfl) (by rfl)).1,
   (bulk_insert_first_record "w.db" (some ⟨true⟩) demoDB "t"
      [[("id", Value.intV 3), ("name", Value.textV "c")],
       [("x", Value.intV 4), ("y", Value.textV "d")]]
      [[("id", Value.intV 3), ("name", Value.textV "c")],
       [("id", Value.intV 4), ("name", Value.textV "d")]]
      (by simp) (by rfl) (by rfl)).2.2⟩

/-- Claim C5: execute_sql fetches and returns the normalized result rows
exactly when the statement text, stripped of surrounding whitespace and
uppercased, starts with SELECT; otherwise the statement is committed and the
empty sequence is returned.  (The source tests the string prefix; a text
starting with a longer SELECT-prefixed token is not valid SQL, fails at
execution and yields the empty sequence through the same conversion.) -/
theorem execute_sql_dispatch (pth : String) (c : Conn) (db : DB) (s : String)
    (p : Option (List Value)) :
    (pyStartsWith (pyUpper (pyStrip s)) "SELECT" = true →
      LiteDBManager.execute_sql ⟨pth, some c⟩ db s p =
        match Engine.runRaw c db s (p.getD []) with
        | .ok (res, db1) => .ok (normalizeRows res.1 res.2, db1)
        | .error _ => .ok ([], db)) ∧
    (pyStartsWith (pyUpper (pyStrip s)) "SELECT" = false →
      LiteDBManager.execute_sql ⟨pth, some c⟩ db s p =
        match Engine.runRaw c db s (p.getD []) with
        | .ok (_, db1) => .ok ([], db1)
        | .error _ => .ok ([], db)) := by
  constructor <;> intro hB <;>
    cases h : Engine.runRaw c db s (p.getD []) <;>
    simp [LiteDBManager.execute_sql, h, hB]

/-- Witness for C5: a plain select over the demo table is fetched and
normalized; a non-select text is executed without fetching and yields the
empty sequence. -/
theorem execute_sql_dispatch_witness :
    LiteDBManager.execute_sql ⟨"w.db", some ⟨true⟩⟩ demoDB "SELECT * FROM t" none =
      .ok ([[("id", Value.intV 1), ("name", Value.textV "a")],
            [("id", Value.intV 2), ("name", Value.textV "b")]], demoDB) ∧
    LiteDBManager.execute_sql ⟨"w.db", some ⟨true⟩⟩ demoDB
        "CREATE TABLE u (id INTEGER)" none = .ok ([], demoDB) :=
  ⟨((execute_sql_dispatch "w.db" ⟨true⟩ demoDB "SELECT * FROM t" none).1
      (by decide)).trans (by rfl),
   ((execute_sql_dispatch "w.db" ⟨true⟩ demoDB "CREATE TABLE u (id INTEGER)" none).2
      (by decide)).trans (by rfl)⟩

/-- Claim C6: the INSERT statement carries exactly one placeholder per key of
the record, and the column list and bound value list come from the same
record in its iteration order, so the i-th column name is paired with the
i-th bound value — zipping the keys with the values reproduces the record. -/
theorem insert_positional (t : String) (d : Record)
    (ht : '?' ∉ t.data) (hkq : ∀ k ∈ recKeys d, '?' ∉ k.data) :
    ((insertSQL t d).data.count '?') = (recKeys d).length ∧
    (recKeys d).zip (recValues d) = d := by
  refine ⟨?_, recKeys_zip_recValues d⟩
  have hck : ('?' ∉ (pyJoin ", " (recKeys d)).data) := notMem_pyJoin _ (by decide) hkq
  show ((("INSERT INTO " ++ t ++ " (" ++ pyJoin ", " (recKeys d) ++
    ") VALUES (" ++ pyJoin ", " (d.map (fun _ => "?")) ++ ")").data).count '?') = _
  simp only [String.data_append, List.count_append]
  rw [List.count_eq_zero.mpr ht, List.count_eq_zero.mpr hck, count_pyJoin_placeholders,
    show ("INSERT INTO ".data.count '?') = 0 from rfl,
    show (" (".data.count '?') = 0 from rfl,
    show (") VALUES (".data.count '?') = 0 from rfl,
    show (")".data.count '?') = 0 from rfl]
  simp [recKeys]

/-- Witness for C6 on a concrete record. -/
theorem insert_positional_witness :
    ((insertSQL "users" [("id", Value.intV 1), ("name", Value.textV "a")]).data.count '?') =
      (recKeys [("id", Value.intV 1), ("name", Value.textV "a")]).length ∧
    (recKeys [("id", Value.intV 1), ("name", Value.textV "a")]).zip
        (recValues [("id", Value.intV 1), ("name", Value.textV "a")]) =
      [("id", Value.intV 1), ("name", Value.textV "a")] :=
  insert_positional "users" [("id", Value.intV 1), ("name", Value.textV "a")]
    (by decide) (by decide)

/-- On an open connection, create_table reports success and appends the
table exactly when the name is absent. -/
theorem create_table_open (pth t : String) (cols : List (String × String)) (db : DB) :
    LiteDBManager.create_table ⟨pth, some ⟨true⟩⟩ db t cols =
      .ok (true, if (db.map Prod.fst).contains t then db
                 else db ++ [(t, ⟨cols, []⟩)]) := by
  show (match (if (db.map Prod.fst).contains t = true then
      (Except.ok (([], []), db) : Except SqlError ((List String × List (List Value)) × DB))
      else .ok (([], []), db ++ [(t, ⟨cols, []⟩)])) with
    | .ok (_, db1) => (Except.ok (true, db1) : Except PyError (Bool × DB))
    | .error _ => .ok (false, db)) = _
  by_cases hc : (db.map Prod.fst).contains t = true
  · rw [if_pos hc, if_pos hc]
  · rw [if_neg hc, if_neg hc]

/-- Claim C8: on an open connection, create_table always succeeds; the
resulting content lists the created table name exactly once in
get_all_tables (for a name other than the filtered sqlite_sequence, over a
content with distinct table names), and re-invoking create_table with the
same name is an idempotent no-op success that leaves the content unchanged. -/
theorem create_table_idempotent (pth t : String) (cols : List (String × String))
    (db : DB) (hnd : (db.map Prod.fst).Nodup) (hts : t ≠ "sqlite_sequence") :
    ∃ db1 : DB,
      LiteDBManager.create_table ⟨pth, some ⟨true⟩⟩ db t cols = .ok (true, db1) ∧
      LiteDBManager.get_all_tables ⟨pth, some ⟨true⟩⟩ db1 =
        .ok ((db1.map Prod.fst).filter (fun s => s != "sqlite_sequence"), db1) ∧
      ((db1.map Prod.fst).filter (fun s => s != "sqlite_sequence")).count t = 1 ∧
      LiteDBManager.create_table ⟨pth, some ⟨true⟩⟩ db1 t cols = .ok (true, db1) := by
  have hfilter : ∀ db2 : DB, ((db2.map Prod.fst).filter
      (fun s => s != "sqlite_sequence")).count t = (db2.map Prod.fst).count t :=
    fun db2 => List.count_filter (by simpa using hts)
  by_cases hc : (db.map Prod.fst).contains t = true
  · refine ⟨db, ?_, get_all_tables_names pth db, ?_, ?_⟩
    · rw [create_table_open, if_pos hc]
    · rw [hfilter db]
      exact List.count_eq_one_of_mem hnd (List.elem_iff.mp hc)
    · rw [create_table_open, if_pos hc]
  · refine ⟨db ++ [(t, ⟨cols, []⟩)], ?_,
      get_all_tables_names pth (db ++ [(t, ⟨cols, []⟩)]), ?_, ?_⟩
    · rw [create_table_open, if_neg hc]
    · rw [hfilter]
      have hn : t ∉ db.map Prod.fst := fun hmem => hc (List.elem_iff.mpr hmem)
      simp [List.count_append, List.count_eq_zero.mpr hn]
    · have hmem : ((db ++ [(t, (⟨cols, []⟩ : Table))]).map Prod.fst).contains t = true := by
        simp
      rw [create_table_open, if_pos hmem]

/-- Witness for C8: creating the table users twice over an empty database. -/
theorem create_table_idempotent_witness :
    ∃ db1 : DB,
      LiteDBManager.create_table ⟨"w.db", some ⟨true⟩⟩ [] "users" [("id", "INTEGER")] =
        .ok (true, db1) ∧
      LiteDBManager.get_all_tables ⟨"w.db", some ⟨true⟩⟩ db1 =
        .ok ((db1.map Prod.fst).filter (fun s => s != "sqlite_sequence"), db1) ∧
      ((db1.map Prod.fst).filter (fun s => s != "sqlite_sequence")).count "users" = 1 ∧
      LiteDBManager.create_table ⟨"w.db", some ⟨true⟩⟩ db1 "users" [("id", "INTEGER")] =
        .ok (true, db1) :=
  create_table_idempotent "w.db" "users" [("id", "INTEGER")] []
    (by simp) (by decide)
